import Mathlib

/-!
Shallow embedding of `shutdown_aware_transform_stream` (Deno module).

The embedded code (translated from the TypeScript source):
* `ShutdownAwareTransformerAdapter` — in particular its one-shot guard
  `closeTransformerIfNotAlreadyClosed`, the `abort`-listener registration in
  the constructor, the `flush` promise chain
  `Promise.resolve(flush(...)).then(closeTransformerIfNotAlreadyClosed)`,
  the conditional definition of `transform`, and the assertions in
  `flush`/`transform` (file `shutdown_aware_transform_stream.ts`);
* `ShutdownAwareTransformStreamDefaultController` — the augmented controller
  delegating `enqueue`/`error`/`terminate`/`desiredSize` to the base
  controller;
* `ShutdownAwareTransformStream` — the composition wiring (monitor piped to
  the inner `TransformStream`, pipe failure feeding `AbortController.abort`);
* `ShutdownMonitorWritableStream` — the writable proxy sink and its one-time
  `pipeTo` binding (file `shutdown_monitor_writable_stream.ts`).

The host Web Streams primitives (`TransformStream`, `WritableStream`,
`AbortController`, promise scheduling) are external collaborators; their
behaviour at the points this module relies on is encoded in explicitly
marked `host...` definitions, following the WHATWG Streams semantics that
the repository tests exercise.
-/

namespace SATS

/-! ## The one-shot close guard of `ShutdownAwareTransformerAdapter`

Translated from `shutdown_aware_transform_stream.ts`:

```ts
 #closeTransformerIfNotAlreadyClosed = (() => {
  let closeCalled = false;
  return () => {
    if (!closeCalled) {
      closeCalled = true;
      this.#transformer.close && this.#transformer.close();
    }
  };
})();
```

The adapter state tracks the `closeCalled` flag, how many times the guarded
body ran (`deliveredCount`), and how many times the user-supplied
`transformer.close()` callback was actually invoked (`userCloseCount`).
`hasClose` records whether the user transformer supplies a `close` callback
(`this.#transformer.close && ...`).
-/

structure AdapterGuardState where
  closeCalled : Bool
  deliveredCount : Nat
  userCloseCount : Nat
  deriving Repr, DecidableEq

def initialGuardState : AdapterGuardState :=
  { closeCalled := false, deliveredCount := 0, userCloseCount := 0 }

/-- The guarded close dispatch (`#closeTransformerIfNotAlreadyClosed`): a
check-and-set of `closeCalled`; the user close callback runs only when the
flag transitions false to true and the transformer supplies `close`. -/
def closeTransformerIfNotAlreadyClosed (hasClose : Bool)
    (s : AdapterGuardState) : AdapterGuardState :=
  if s.closeCalled then s
  else
    { closeCalled := true,
      deliveredCount := s.deliveredCount + 1,
      userCloseCount := s.userCloseCount + (if hasClose then 1 else 0) }

/-! ## Events delivered to the adapter by the host machinery

The guard is invoked from exactly two sites in the adapter source:

* `signal.addEventListener("abort", this.#closeTransformerIfNotAlreadyClosed)`
  in the constructor — runs when the shared abort signal fires (the
  `AbortController` fires its signal at most once);
* `.then(this.#closeTransformerIfNotAlreadyClosed)` appended to
  `Promise.resolve(this.#transformer.flush && this.#transformer.flush(...))`
  in `flush` — a one-argument `then` continuation, which the host promise
  machinery runs exactly when the flush future fulfils, strictly after it
  settles, and never on rejection.

All other events (flush being called, flush settling, start failing, a
`controller.error()` call) do not touch the guard.
-/

inductive AdapterEv where
  /-- Host calls the adapter `flush` method (clean end-of-input). -/
  | flushCall
  /-- The user flush callback calls `controller.error(...)`. -/
  | ctrlError
  /-- The flush future fulfils (settles successfully). -/
  | flushFulfilled
  /-- The flush future rejects (settles with a failure), including a
  synchronous throw from the user flush callback. -/
  | flushRejected
  /-- The host promise machinery runs the `.then` continuation registered on
  the flush chain; the continuation is `#closeTransformerIfNotAlreadyClosed`. -/
  | thenContinuation
  /-- Host calls the adapter `start` method. -/
  | startCall
  /-- The start future rejects (synchronous throw or async rejection). -/
  | startFailed
  /-- The shared abort signal fires; the listener registered in the adapter
  constructor is `#closeTransformerIfNotAlreadyClosed`. -/
  | abortFired
  deriving Repr, DecidableEq

/-- How the adapter state reacts to one host event: only the two guard call
sites touch the guard state. -/
def adapterStep (hasClose : Bool) (s : AdapterGuardState) :
    AdapterEv → AdapterGuardState
  | AdapterEv.thenContinuation => closeTransformerIfNotAlreadyClosed hasClose s
  | AdapterEv.abortFired => closeTransformerIfNotAlreadyClosed hasClose s
  | _ => s

def adapterRun (hasClose : Bool) (evs : List AdapterEv) : AdapterGuardState :=
  evs.foldl (adapterStep hasClose) initialGuardState

/-! ## Shutdown scenarios

Each scenario is one of the shutdown paths named by the specification. The
host event trace of each scenario follows the WHATWG Streams + promise
scheduling semantics of the composed stream, and coincides with the event
sequences asserted by the repository tests in
`shutdown_aware_transform_stream_test.ts` (the `close() is called after ...`
test group):

* `flushSucceeds`: clean end, flush fulfils, the `then` continuation runs;
  the pipe promise resolves, so the abort signal never fires.
* `flushThrowsSync`: the user flush throws synchronously inside the adapter
  `flush`, so the chain rejects without running the `then` continuation; the
  stream errors, the monitor pipe rejects, and
  `#transformMonitorPipe.catch` aborts the shared `AbortController`.
* `flushRejectsAsync`: as above but the rejection is asynchronous.
* `flushCallsErrorSync` / `flushCallsErrorAsync`: the user flush calls
  `controller.error(...)` and its own future fulfils, so the `then`
  continuation runs first and the abort signal fires afterwards (per the
  comment in the adapter source: close is called before the underlying
  transform stream becomes errored).
* `startRejects`: flush is never called; the errored stream fails the
  monitor pipe, which fires the abort signal (test: close() is called after
  start() rejects).
* `startThrows`: a synchronous throw from the user start propagates out of
  the inner `TransformStream` constructor and out of the
  `ShutdownAwareTransformStream` constructor before the monitor pipe and
  its catch wiring are established (the repository test for this case
  records the failure on the constructor call itself), so the abort signal
  never fires, flush is never called, and the guard is never invoked.
* `noTransformer`: clean end with the empty transformer `{}`; the adapter
  `flush` method still runs (`Promise.resolve(undefined).then(guard)`).
* `writerAborted` / `readerCancelled`: flush is never called; the monitor
  pipe rejects and the abort signal fires.
-/

inductive Scenario where
  | flushSucceeds
  | flushThrowsSync
  | flushRejectsAsync
  | flushCallsErrorSync
  | flushCallsErrorAsync
  | startThrows
  | startRejects
  | noTransformer
  | writerAborted
  | readerCancelled
  deriving Repr, DecidableEq, Fintype

open AdapterEv in
/-- The trace of host events the adapter observes in each shutdown
scenario. -/
def hostTrace : Scenario → List AdapterEv
  | Scenario.flushSucceeds => [flushCall, flushFulfilled, thenContinuation]
  | Scenario.flushThrowsSync => [flushCall, flushRejected, abortFired]
  | Scenario.flushRejectsAsync => [flushCall, flushRejected, abortFired]
  | Scenario.flushCallsErrorSync =>
      [flushCall, ctrlError, flushFulfilled, thenContinuation, abortFired]
  | Scenario.flushCallsErrorAsync =>
      [flushCall, ctrlError, flushFulfilled, thenContinuation, abortFired]
  | Scenario.startThrows => [startCall, startFailed]
  | Scenario.startRejects => [startCall, startFailed, abortFired]
  | Scenario.noTransformer => [flushCall, flushFulfilled, thenContinuation]
  | Scenario.writerAborted => [abortFired]
  | Scenario.readerCancelled => [abortFired]

/-- Invariant tying the counters to the `closeCalled` flag: the guarded body
has run exactly when the flag is set, and the user close callback ran exactly
when the flag is set and the transformer supplies one. -/
def guardStateOk (hasClose : Bool) (s : AdapterGuardState) : Prop :=
  s.deliveredCount = (if s.closeCalled then 1 else 0) ∧
    s.userCloseCount = (if s.closeCalled && hasClose then 1 else 0)

lemma guardStateOk_step (hasClose : Bool) (s : AdapterGuardState)
    (h : guardStateOk hasClose s) (e : AdapterEv) :
    guardStateOk hasClose (adapterStep hasClose s e) := by
  obtain ⟨h1, h2⟩ := h
  cases e <;>
    simp only [adapterStep, closeTransformerIfNotAlreadyClosed] <;>
    first
      | exact ⟨h1, h2⟩
      | (split
         · exact ⟨h1, h2⟩
         · rename_i hcc
           simp only [Bool.not_eq_true] at hcc
           simp [guardStateOk, h1, h2, hcc])

lemma guardStateOk_run (hasClose : Bool) (evs : List AdapterEv)
    (s : AdapterGuardState) (h : guardStateOk hasClose s) :
    guardStateOk hasClose (evs.foldl (adapterStep hasClose) s) := by
  induction evs generalizing s with
  | nil => exact h
  | cons e es ih => exact ih _ (guardStateOk_step hasClose s h e)

/-- For an arbitrary host event trace — not only the enumerated scenarios —
the guarded close dispatch runs at most once and the user close callback runs
at most once. -/
theorem adapterRun_at_most_once (hasClose : Bool) (evs : List AdapterEv) :
    (adapterRun hasClose evs).deliveredCount ≤ 1 ∧
      (adapterRun hasClose evs).userCloseCount ≤ 1 := by
  have h := guardStateOk_run hasClose evs initialGuardState
    (by constructor <;> rfl)
  obtain ⟨h1, h2⟩ := h
  unfold adapterRun
  rw [h1, h2]
  constructor <;> split <;> omega

/-- C1 counterexample: on the synchronous-start-throw path the guarded
close dispatch runs zero times — the constructor itself throws before the
pipe wiring exists, so the abort signal never fires and flush never runs —
refuting the claim that the close callback fires exactly once (never zero)
on every shutdown path. -/
theorem shutdown_exactly_once_counterexample :
    (adapterRun true (hostTrace Scenario.startThrows)).deliveredCount = 0 ∧
      (adapterRun true (hostTrace Scenario.startThrows)).userCloseCount = 0 ∧
      ¬ (∀ sc : Scenario,
          (adapterRun true (hostTrace sc)).deliveredCount = 1) := by
  decide

/-- C1 (amended): in every shutdown scenario other than a synchronous throw
from `start` — flush throwing synchronously, flush rejecting
asynchronously, flush calling `controller.error()`, flush succeeding, start
rejecting asynchronously, no transformer supplied, the writer being
aborted, the reader being cancelled — the guarded close dispatch of
`ShutdownAwareTransformerAdapter` runs exactly once (never zero times,
never twice), and the user `close` callback, when supplied, is invoked
exactly once. When `start` throws synchronously the stream constructor
itself throws, the stream is never created, and the close callback runs
zero times. -/
theorem shutdown_exactly_once_amended (sc : Scenario) (hasClose : Bool)
    (h : sc ≠ Scenario.startThrows) :
    (adapterRun hasClose (hostTrace sc)).deliveredCount = 1 ∧
      (adapterRun hasClose (hostTrace sc)).userCloseCount
        = (if hasClose then 1 else 0) := by
  revert sc hasClose
  decide

/-- Witness for the amended C1 at the concrete writer-abort scenario with a
close callback present. -/
theorem shutdown_exactly_once_amended_witness :
    Scenario.writerAborted ≠ Scenario.startThrows ∧
      ((adapterRun true (hostTrace Scenario.writerAborted)).deliveredCount
          = 1 ∧
        (adapterRun true (hostTrace Scenario.writerAborted)).userCloseCount
          = (if true then 1 else 0)) :=
  ⟨by decide,
   shutdown_exactly_once_amended Scenario.writerAborted true (by decide)⟩

/-! ## Ordering of the close dispatch relative to flush settlement (C2) -/

/-- Index of the event at which the flush future settles (fulfils or
rejects), if any. -/
def settleIndex (evs : List AdapterEv) : Option Nat :=
  evs.findIdx? fun e =>
    e == AdapterEv.flushFulfilled || e == AdapterEv.flushRejected

/-- Indices of the events at which the guarded close dispatch actually ran
(the `closeCalled` flag transitioned), accumulated by replaying the adapter
over the trace. -/
def deliveryIndicesAux (hasClose : Bool) (s : AdapterGuardState) (i : Nat) :
    List AdapterEv → List Nat
  | [] => []
  | e :: es =>
    let s2 := adapterStep hasClose s e
    if s.deliveredCount < s2.deliveredCount then
      i :: deliveryIndicesAux hasClose s2 (i + 1) es
    else
      deliveryIndicesAux hasClose s2 (i + 1) es

def deliveryIndices (hasClose : Bool) (evs : List AdapterEv) : List Nat :=
  deliveryIndicesAux hasClose initialGuardState 0 evs

/-- The shutdown scenarios in which the stream ends via clean end-of-input
and the transformer supplies a `flush` callback. -/
def cleanEndFlushScenarios : List Scenario :=
  [Scenario.flushSucceeds, Scenario.flushThrowsSync,
   Scenario.flushRejectsAsync, Scenario.flushCallsErrorSync,
   Scenario.flushCallsErrorAsync]

/-- C2: whenever the stream ends via clean end-of-input and the transformer
supplies a flush callback, the close dispatch runs exactly once and strictly
after the flush future has settled — on success or failure, synchronous or
asynchronous — never before flush settles. -/
theorem close_after_flush_settles (sc : Scenario)
    (h : sc ∈ cleanEndFlushScenarios) :
    ∃ si di, settleIndex (hostTrace sc) = some si ∧
      deliveryIndices true (hostTrace sc) = [di] ∧ si < di := by
  fin_cases h
  · exact ⟨1, 2, by decide, by decide, by decide⟩
  · exact ⟨1, 2, by decide, by decide, by decide⟩
  · exact ⟨1, 2, by decide, by decide, by decide⟩
  · exact ⟨2, 3, by decide, by decide, by decide⟩
  · exact ⟨2, 3, by decide, by decide, by decide⟩

/-- Witness for C2 at the concrete scenario of a successful flush. -/
theorem close_after_flush_settles_witness :
    Scenario.flushSucceeds ∈ cleanEndFlushScenarios ∧
      ∃ si di, settleIndex (hostTrace Scenario.flushSucceeds) = some si ∧
        deliveryIndices true (hostTrace Scenario.flushSucceeds) = [di] ∧
        si < di :=
  ⟨by decide, close_after_flush_settles Scenario.flushSucceeds (by decide)⟩

/-! ## `ShutdownMonitorWritableStream`

Translated from `shutdown_monitor_writable_stream.ts`. Failures are either
`TypeError`s thrown by the host stream machinery or by `pipeTo` itself
(configuration errors), or data-path reasons carried through the pipeline
(modelled as numbered reasons). -/

inductive JsError where
  | typeError (msg : String)
  | reason (tag : Nat)
  deriving Repr, DecidableEq

/-- Configuration errors are `TypeError`s; data-path failure reasons are
arbitrary values (`reason`), so the two are distinguishable by type. -/
def JsError.isConfigurationError : JsError → Bool
  | JsError.typeError _ => true
  | JsError.reason _ => false

/-- The message of the `TypeError` thrown by `pipeTo` on a second bind. -/
def doubleBindMsg : String :=
  "Failed to pipeTo destination: this stream is already pipedTo a destination"

/-- The message of the `TypeError` the host throws when `getWriter` is
called on a locked stream. -/
def alreadyLockedMsg : String := "The stream is already locked."

/-- A destination writable stream endpoint as far as binding is concerned:
its identity and whether a writer currently holds its lock. -/
structure DestWritable where
  id : Nat
  locked : Bool
  deriving Repr, DecidableEq

/-- Host `WritableStream.getWriter()`: acquiring a writer on a locked stream
throws a `TypeError`; otherwise the caller obtains the (exclusive) writer
and the stream becomes locked. -/
def hostGetWriter (d : DestWritable) : Except JsError (Nat × DestWritable) :=
  if d.locked then Except.error (JsError.typeError alreadyLockedMsg)
  else Except.ok (d.id, { d with locked := true })

/-- The monitor state relevant to binding: the `#monitoredWriter` field,
`undefined` until `pipeTo` succeeds, afterwards the id of the destination
writer it acquired. -/
structure MonitorBindState where
  monitoredWriter : Option Nat
  deriving Repr, DecidableEq

/-- `pipeTo(destination)` translated from the source:

```ts
pipeTo(destination: WritableStream<W>): Promise<void> {
  if (this.#monitoredWriter !== undefined) {
    throw new TypeError("Failed to pipeTo destination: ...");
  }
  this.#monitoredWriter = destination.getWriter();
  this.#monitoredWritable.resolve(destination);
  return this.#monitoredWriter.closed;
}
```

The result is the synchronous outcome together with the updated monitor and
destination states (both unchanged when an error is thrown). -/
def pipeTo (m : MonitorBindState) (d : DestWritable) :
    Except JsError Unit × MonitorBindState × DestWritable :=
  match m.monitoredWriter with
  | some _ => (Except.error (JsError.typeError doubleBindMsg), m, d)
  | none =>
    match hostGetWriter d with
    | Except.error e => (Except.error e, m, d)
    | Except.ok (wid, d2) => (Except.ok (), ⟨some wid⟩, d2)

/-- C7: calling `pipeTo` a second time on the same monitor fails
synchronously with a configuration error (a `TypeError`, distinguishable
from data-path failures) and leaves both the first binding and the
destination untouched; calling `pipeTo` with a destination that is already
locked by another writer fails immediately with the destination own
already-locked `TypeError`, again changing nothing. -/
theorem pipeTo_double_bind_rejected (m : MonitorBindState) (d : DestWritable) :
    (∀ w, m.monitoredWriter = some w →
      pipeTo m d = (Except.error (JsError.typeError doubleBindMsg), m, d) ∧
        (JsError.typeError doubleBindMsg).isConfigurationError = true) ∧
    (m.monitoredWriter = none → d.locked = true →
      pipeTo m d = (Except.error (JsError.typeError alreadyLockedMsg), m, d) ∧
        (JsError.typeError alreadyLockedMsg).isConfigurationError = true) := by
  constructor
  · intro w hw
    exact ⟨by simp [pipeTo, hw], rfl⟩
  · intro hm hd
    exact ⟨by simp [pipeTo, hm, hostGetWriter, hd], rfl⟩

/-- Witness for C7: a monitor already bound to writer 0 rejects a second
bind, and an unbound monitor rejects a locked destination. -/
theorem pipeTo_double_bind_rejected_witness :
    (MonitorBindState.mk (some 0)).monitoredWriter = some 0 ∧
      pipeTo ⟨some 0⟩ ⟨1, false⟩
        = (Except.error (JsError.typeError doubleBindMsg), ⟨some 0⟩,
            ⟨1, false⟩) ∧
    (MonitorBindState.mk none).monitoredWriter = none ∧
      pipeTo ⟨none⟩ ⟨1, true⟩
        = (Except.error (JsError.typeError alreadyLockedMsg), ⟨none⟩,
            ⟨1, true⟩) :=
  ⟨rfl,
   ((pipeTo_double_bind_rejected ⟨some 0⟩ ⟨1, false⟩).1 0 rfl).1,
   rfl,
   ((pipeTo_double_bind_rejected ⟨none⟩ ⟨1, true⟩).2 rfl rfl).1⟩

/-! ## Writes through the monitor (C5)

The monitor sink `write` is

```ts
write: (chunk: W) => {
  assert(this.#monitoredWriter);
  return this.#monitoredWriter!.write(chunk);
},
```

and the sink `start` awaits the deferred `monitoredWritable` resolved by
`pipeTo`. Host `WritableStream` semantics: chunks written by the producer
are placed in the stream queue in call order; the sink `write` is invoked
on them in FIFO order, one at a time, and only after the sink `start`
promise has resolved — so writes issued before `pipeTo` suspend in the
queue. Because the sink returns the destination writer `write` promise,
each processed monitor write settles exactly as the corresponding
destination write; when one rejects, the writable stream becomes errored
and the remaining queued writes reject with the stored error without
reaching the destination. -/

structure DrainState (W : Type) where
  destLog : List W
  results : List (Except JsError Unit)
  storedError : Option JsError
  deriving Repr

def emptyDrainState (W : Type) : DrainState W :=
  { destLog := [], results := [], storedError := none }

/-- FIFO processing of queued writes through the monitor sink, forwarding
each to the destination write behaviour `destWrite`. -/
def drainQueue {W : Type} (destWrite : W → Except JsError Unit) :
    List W → DrainState W → DrainState W
  | [], s => s
  | c :: cs, s =>
    match s.storedError with
    | some e =>
      drainQueue destWrite cs
        { s with results := s.results ++ [Except.error e] }
    | none =>
      match destWrite c with
      | Except.ok _ =>
        drainQueue destWrite cs
          { s with destLog := s.destLog ++ [c],
                   results := s.results ++ [Except.ok ()] }
      | Except.error e =>
        drainQueue destWrite cs
          { s with destLog := s.destLog ++ [c],
                   results := s.results ++ [Except.error e],
                   storedError := some e }

/-- Producer-visible operations on the monitor. -/
inductive MonitorOp (W : Type) where
  | write (c : W)
  | bind
  deriving Repr

structure MonitorRunState (W : Type) where
  bound : Bool
  queue : List W
  drained : DrainState W
  deriving Repr

def monitorInit (W : Type) : MonitorRunState W :=
  { bound := false, queue := [], drained := emptyDrainState W }

/-- One producer operation: a write before binding suspends in the queue
(the sink is not yet running); binding starts the sink, which drains the
queue in order; a write after binding is processed directly. -/
def monitorOpStep {W : Type} (destWrite : W → Except JsError Unit)
    (s : MonitorRunState W) : MonitorOp W → MonitorRunState W
  | MonitorOp.write c =>
    if s.bound then { s with drained := drainQueue destWrite [c] s.drained }
    else { s with queue := s.queue ++ [c] }
  | MonitorOp.bind =>
    if s.bound then s
    else { bound := true, queue := [],
           drained := drainQueue destWrite s.queue s.drained }

def monitorRun {W : Type} (destWrite : W → Except JsError Unit)
    (ops : List (MonitorOp W)) : MonitorRunState W :=
  ops.foldl (monitorOpStep destWrite) (monitorInit W)

lemma monitorRun_writes_unbound {W : Type}
    (destWrite : W → Except JsError Unit) (cs : List W)
    (s : MonitorRunState W) (hb : s.bound = false) :
    (cs.map MonitorOp.write).foldl (monitorOpStep destWrite) s
      = { s with queue := s.queue ++ cs } := by
  induction cs generalizing s with
  | nil => simp
  | cons c cs ih =>
    simp only [List.map_cons, List.foldl_cons]
    rw [show monitorOpStep destWrite s (MonitorOp.write c)
          = { s with queue := s.queue ++ [c] } by
        simp [monitorOpStep, hb]]
    rw [ih { s with queue := s.queue ++ [c] } hb]
    simp

lemma drainQueue_length {W : Type} (destWrite : W → Except JsError Unit)
    (cs : List W) (s : DrainState W) :
    ((drainQueue destWrite cs s).results).length
      = s.results.length + cs.length := by
  induction cs generalizing s with
  | nil => simp [drainQueue]
  | cons c cs ih =>
    simp only [drainQueue]
    cases hse : s.storedError with
    | some e => rw [ih]; simp; omega
    | none =>
      cases hdw : destWrite c with
      | ok u => rw [ih]; simp; omega
      | error e => rw [ih]; simp; omega

lemma drainQueue_all_ok {W : Type} (destWrite : W → Except JsError Unit) :
    ∀ (cs : List W) (s : DrainState W), s.storedError = none →
      (∀ c ∈ cs, destWrite c = Except.ok ()) →
      drainQueue destWrite cs s
        = { destLog := s.destLog ++ cs,
            results := s.results ++ List.replicate cs.length (Except.ok ()),
            storedError := none }
  | [], s, hse, _ => by
    obtain ⟨d, r, e⟩ := s
    simp only at hse
    subst hse
    simp [drainQueue]
  | c :: cs, s, hse, hok => by
    simp only [drainQueue, hse, hok c (List.mem_cons_self c cs)]
    rw [drainQueue_all_ok destWrite cs _ rfl
      (fun x hx => hok x (List.mem_cons_of_mem c hx))]
    simp [List.replicate_succ, List.append_assoc]

lemma drainQueue_single {W : Type} (destWrite : W → Except JsError Unit)
    (c : W) (s : DrainState W) (hse : s.storedError = none) :
    (drainQueue destWrite [c] s).results = s.results ++ [destWrite c] ∧
      (drainQueue destWrite [c] s).destLog = s.destLog ++ [c] := by
  simp only [drainQueue, hse]
  cases hdw : destWrite c with
  | ok u => simp [drainQueue]
  | error e => simp [drainQueue]

/-- C5: writes issued to the monitor before binding suspend — the chunks
stay queued in call order, none reaches the destination and none is dropped
— and once `pipeTo` binds the destination, they are forwarded to the
destination write in the original call order (shown here on the
failure-free path, where the destination receives exactly the written
chunks and every monitor write fulfils); moreover each write processed
while the stream is not errored settles exactly as the destination write on
that chunk settles — it fails precisely when the destination write fails,
with the destination failure as its own failure. -/
theorem monitor_write_suspends_then_forwards {W : Type}
    (destWrite : W → Except JsError Unit) (cs : List W)
    (hok : ∀ c ∈ cs, destWrite c = Except.ok ()) :
    (monitorRun destWrite (cs.map MonitorOp.write)).bound = false ∧
    (monitorRun destWrite (cs.map MonitorOp.write)).queue = cs ∧
    (monitorRun destWrite (cs.map MonitorOp.write)).drained.destLog = [] ∧
    (monitorRun destWrite
        (cs.map MonitorOp.write ++ [MonitorOp.bind])).drained.destLog = cs ∧
    (monitorRun destWrite
        (cs.map MonitorOp.write ++ [MonitorOp.bind])).drained.results
      = List.replicate cs.length (Except.ok ()) ∧
    (∀ (s : DrainState W) (c : W), s.storedError = none →
      (drainQueue destWrite [c] s).results = s.results ++ [destWrite c]) := by
  have hpre : monitorRun destWrite (cs.map MonitorOp.write)
      = { bound := false, queue := cs, drained := emptyDrainState W } := by
    unfold monitorRun
    rw [monitorRun_writes_unbound destWrite cs (monitorInit W) rfl]
    simp [monitorInit]
  have hbindStep : monitorRun destWrite
      (cs.map MonitorOp.write ++ [MonitorOp.bind])
      = { bound := true, queue := [],
          drained := drainQueue destWrite cs (emptyDrainState W) } := by
    unfold monitorRun
    rw [List.foldl_append]
    show monitorOpStep destWrite
        ((cs.map MonitorOp.write).foldl (monitorOpStep destWrite)
          (monitorInit W)) MonitorOp.bind = _
    rw [show (cs.map MonitorOp.write).foldl (monitorOpStep destWrite)
          (monitorInit W) = monitorRun destWrite (cs.map MonitorOp.write)
        from rfl, hpre]
    simp [monitorOpStep]
  refine ⟨by rw [hpre], by rw [hpre], by rw [hpre]; rfl, ?_, ?_, ?_⟩
  · rw [hbindStep]
    rw [drainQueue_all_ok destWrite cs (emptyDrainState W) rfl hok]
    simp [emptyDrainState]
  · rw [hbindStep]
    rw [drainQueue_all_ok destWrite cs (emptyDrainState W) rfl hok]
    simp [emptyDrainState]
  · intro s c hse
    exact (drainQueue_single destWrite c s hse).1

/-- Witness for C5: two chunks written before binding to an always-accepting
destination. -/
theorem monitor_write_suspends_then_forwards_witness :
    (∀ c ∈ ([1, 2] : List Nat),
        (fun (_ : Nat) => (Except.ok () : Except JsError Unit)) c
          = Except.ok ()) ∧
    ((monitorRun (fun (_ : Nat) => (Except.ok () : Except JsError Unit))
        (([1, 2] : List Nat).map MonitorOp.write)).bound = false ∧
      (monitorRun (fun _ => Except.ok ())
        (([1, 2] : List Nat).map MonitorOp.write)).queue = [1, 2] ∧
      (monitorRun (fun _ => Except.ok ())
        (([1, 2] : List Nat).map MonitorOp.write)).drained.destLog = [] ∧
      (monitorRun (fun _ => Except.ok ())
        (([1, 2] : List Nat).map MonitorOp.write
          ++ [MonitorOp.bind])).drained.destLog = [1, 2] ∧
      (monitorRun (fun _ => Except.ok ())
        (([1, 2] : List Nat).map MonitorOp.write
          ++ [MonitorOp.bind])).drained.results
        = List.replicate ([1, 2] : List Nat).length (Except.ok ()) ∧
      (∀ (s : DrainState Nat) (c : Nat), s.storedError = none →
        (drainQueue (fun _ => Except.ok ()) [c] s).results
          = s.results ++ [Except.ok ()])) :=
  ⟨fun _ _ => rfl,
   monitor_write_suspends_then_forwards
     (fun (_ : Nat) => (Except.ok () : Except JsError Unit)) [1, 2]
     (fun _ _ => rfl)⟩

/-! ## Abort forwarding through the monitor (C8)

The monitor sink abort is

```ts
abort: (reason: unknown) => {
  assert(this.#monitoredWriter);
  return this.#monitoredWriter!.abort(reason);
},
```

Host `WritableStream` abort semantics (WHATWG): `writer.abort(R)` errors the
stream with R — the writer `closed` promise and any producer awaiting
completion observe R — invokes the underlying sink abort callback with R,
and the promise returned from the `abort` call itself settles as the sink
abort result does. -/

structure WritableAbortOutcome where
  /-- What the `abort(R)` call itself settles with (the direct caller). -/
  abortCallResult : Except JsError Unit
  /-- What `writer.closed` (producers awaiting completion) settles with. -/
  closedResult : Except JsError Unit
  /-- The reason the underlying sink abort callback received. -/
  sinkReceivedReason : JsError

/-- Host `WritableStream` abort, parameterised by the underlying sink abort
behaviour. -/
def hostWritableAbort (sinkAbort : JsError → Except JsError Unit)
    (R : JsError) : WritableAbortOutcome :=
  { abortCallResult := sinkAbort R,
    closedResult := Except.error R,
    sinkReceivedReason := R }

/-- The monitor sink abort forwards the received reason, unchanged, to the
destination writer abort, and returns the resulting promise. -/
def monitorSinkAbort (destSinkAbort : JsError → Except JsError Unit)
    (R : JsError) : Except JsError Unit :=
  (hostWritableAbort destSinkAbort R).abortCallResult

/-- Aborting the monitor with reason R, with the destination writable
modelled by its own sink abort behaviour. -/
def monitorAbortOutcome (destSinkAbort : JsError → Except JsError Unit)
    (R : JsError) : WritableAbortOutcome :=
  hostWritableAbort (monitorSinkAbort destSinkAbort) R

/-- C8: when the destination sink abort handler fails with a secondary
failure S, the monitor `abort(R)` call fails with S — surfaced only to the
direct caller of `abort` — while the monitor closed/failed state still
reflects the original reason R (producers awaiting the monitor completion
observe R, never S); the destination received the original reason R and its
own closed state also reflects R. -/
theorem abort_secondary_failure_isolated (R S : JsError) :
    (monitorAbortOutcome (fun _ => Except.error S) R).abortCallResult
        = Except.error S ∧
    (monitorAbortOutcome (fun _ => Except.error S) R).closedResult
        = Except.error R ∧
    (monitorAbortOutcome (fun _ => Except.error S) R).sinkReceivedReason
        = R ∧
    (hostWritableAbort (fun _ => Except.error S) R).sinkReceivedReason = R ∧
    (hostWritableAbort (fun _ => Except.error S) R).closedResult
        = Except.error R :=
  ⟨rfl, rfl, rfl, rfl, rfl⟩

/-! ## Two-way abort propagation through the composed stream (C4)

The composition (from the `ShutdownAwareTransformStream` constructor):
the monitor is piped to the inner `TransformStream` writable at
construction, and

```ts
this.#transformMonitorPipe.catch((reason) => {
  this.#abortController.abort(reason);
});
```

feeds any pipe failure into the shared `AbortController`, whose signal the
adapter constructor listens on with `#closeTransformerIfNotAlreadyClosed`,
alongside any listeners the transformer registered via
`controller.signal.addEventListener`.

Host rules used (external collaborators):
* `TransformStream` propagation: aborting its writable side with reason R
  errors its readable side with R; cancelling its readable side with reason
  R errors its writable side with R;
* the pipe completion promise returned by the monitor `pipeTo` is the inner
  writable writer `closed` promise, so it rejects with the reason the inner
  writable errored with;
* `AbortController.abort(R)`: the first call stores R as the signal reason
  and fires the registered listeners once, in registration order, each
  observing the stored reason; later calls are no-ops;
* the monitor sink `start` mirrors the destination failure onto the monitor
  (`this.#monitoredWriter.closed.catch(controller.error)` in the source),
  so the monitor own error state reflects the inner writable failure. -/

/-- Host `TransformStream` propagation: readable-side failure reason caused
by aborting the writable side with R. -/
def hostTransformReadableErrorOnWritableAbort (R : JsError) :
    Option JsError := some R

/-- Host `TransformStream` propagation: writable-side failure reason caused
by cancelling the readable side with R. -/
def hostTransformWritableErrorOnReadableCancel (R : JsError) :
    Option JsError := some R

structure SignalState where
  aborted : Bool
  reason : Option JsError
  deriving Repr, DecidableEq

def initialSignalState : SignalState := { aborted := false, reason := none }

/-- Host `AbortController.abort`: first call wins; returns the new signal
state and whether the listeners fired on this call. -/
def acAbort (R : JsError) (s : SignalState) : SignalState × Bool :=
  if s.aborted then (s, false)
  else ({ aborted := true, reason := some R }, true)

/-- Observable outcome of a shutdown of the composed stream. -/
structure SystemShutdownOutcome where
  /-- Failure reason observed by the next read on the readable endpoint. -/
  readableError : Option JsError
  /-- Failure reason observed by producers on the writable endpoint. -/
  writableError : Option JsError
  signal : SignalState
  guard : AdapterGuardState
  /-- Reasons observed by the abort-signal listeners the transformer
  registered (one entry per listener, in registration order). -/
  userListenerObservations : List JsError

/-- The inner `TransformStream` writable has no failing sink abort
behaviour of its own. -/
def innerSinkAbort : JsError → Except JsError Unit := fun _ => Except.ok ()

def rejectionOf : Except JsError Unit → Option JsError
  | Except.ok _ => none
  | Except.error e => some e

/-- Aborting the externally visible writable endpoint (the monitor) with
reason R: the monitor errors with R and forwards the abort to the inner
transform writable (monitor sink abort); the inner transform errors and its
readable side fails with R; the pipe promise — the inner writer `closed` —
rejects with R, so the constructor catch aborts the shared controller with
R, firing the adapter guard listener and the user listeners. -/
def systemWriterAbort (hasClose : Bool) (listenerCount : Nat) (R : JsError) :
    SystemShutdownOutcome :=
  let monitorOutcome := monitorAbortOutcome innerSinkAbort R
  let innerOutcome := hostWritableAbort innerSinkAbort
    monitorOutcome.sinkReceivedReason
  let pipeRejection := rejectionOf innerOutcome.closedResult
  match pipeRejection with
  | none =>
    { readableError := none, writableError := none,
      signal := initialSignalState, guard := initialGuardState,
      userListenerObservations := [] }
  | some reason =>
    let (sig, fired) := acAbort reason initialSignalState
    { readableError :=
        hostTransformReadableErrorOnWritableAbort
          innerOutcome.sinkReceivedReason,
      writableError := rejectionOf monitorOutcome.closedResult,
      signal := sig,
      guard := if fired then adapterStep hasClose initialGuardState
                 AdapterEv.abortFired
               else initialGuardState,
      userListenerObservations :=
        if fired then List.replicate listenerCount (sig.reason.getD reason)
        else [] }

/-- Cancelling the externally visible readable endpoint with reason R: the
inner transform writable errors with R; the monitor sink `start` mirrors
that failure onto the monitor (producers observe R), and the pipe promise
rejects with R, aborting the shared controller as above. -/
def systemReaderCancel (hasClose : Bool) (listenerCount : Nat) (R : JsError) :
    SystemShutdownOutcome :=
  match hostTransformWritableErrorOnReadableCancel R with
  | none =>
    { readableError := none, writableError := none,
      signal := initialSignalState, guard := initialGuardState,
      userListenerObservations := [] }
  | some innerFailure =>
    let (sig, fired) := acAbort innerFailure initialSignalState
    { readableError := none,
      writableError := some innerFailure,
      signal := sig,
      guard := if fired then adapterStep hasClose initialGuardState
                 AdapterEv.abortFired
               else initialGuardState,
      userListenerObservations :=
        if fired then
          List.replicate listenerCount (sig.reason.getD innerFailure)
        else [] }

/-- C4: for every reason R, aborting the writable endpoint with R makes the
readable endpoint fail with R, fires the shutdown close dispatch exactly
once, and every registered abort-signal listener observes R; symmetrically,
cancelling the readable endpoint with R makes the writable endpoint fail
with R, with the same two side effects. -/
theorem abort_propagates_both_ways (hasClose : Bool) (listenerCount : Nat)
    (R : JsError) :
    (systemWriterAbort hasClose listenerCount R).readableError = some R ∧
    (systemWriterAbort hasClose listenerCount R).guard.deliveredCount = 1 ∧
    (systemWriterAbort hasClose listenerCount R).userListenerObservations
        = List.replicate listenerCount R ∧
    (systemWriterAbort hasClose listenerCount R).signal.reason = some R ∧
    (systemReaderCancel hasClose listenerCount R).writableError = some R ∧
    (systemReaderCancel hasClose listenerCount R).guard.deliveredCount = 1 ∧
    (systemReaderCancel hasClose listenerCount R).userListenerObservations
        = List.replicate listenerCount R ∧
    (systemReaderCancel hasClose listenerCount R).signal.reason = some R := by
  refine ⟨rfl, ?_, rfl, rfl, rfl, ?_, rfl, rfl⟩ <;>
    simp [systemWriterAbort, systemReaderCancel, acAbort, initialSignalState,
      adapterStep, closeTransformerIfNotAlreadyClosed, initialGuardState,
      monitorAbortOutcome, hostWritableAbort, monitorSinkAbort,
      innerSinkAbort, rejectionOf, hostTransformReadableErrorOnWritableAbort,
      hostTransformWritableErrorOnReadableCancel]

/-! ## The transformer adapter seen by the base `TransformStream` (C3, C9)

A transformer callback interacts with the stream only through its
controller; the augmented controller
(`ShutdownAwareTransformStreamDefaultController`) delegates
`enqueue`/`error`/`terminate`/`desiredSize` to the wrapped base controller
unchanged, adding only the read-only `signal` property. A callback is
therefore modelled by the controller actions it performs plus whether it
settles successfully or with a failure. -/

inductive CtrlAction (α : Type) where
  | enqueue (chunk : α)
  | error (reason : JsError)
  | terminate
  deriving Repr

inductive CallbackOutcome where
  | ok
  | threw (e : JsError)
  deriving Repr, DecidableEq

structure CallbackEffect (α : Type) where
  actions : List (CtrlAction α)
  outcome : CallbackOutcome
  deriving Repr

/-- A transformer shape: each lifecycle callback may be present or absent,
mirroring the optional methods of `ShutdownAwareTransformer` (and of a base
`Transformer`). -/
structure TransformerModel (α : Type) where
  start : Option (CallbackEffect α)
  transform : Option (α → CallbackEffect α)
  flush : Option (CallbackEffect α)
  deriving Inhabited

/-- The empty transformer `{}` substituted by the constructor when the user
supplies none (`options.transformer ?? {}`). -/
def emptyTransformer (α : Type) : TransformerModel α :=
  { start := none, transform := none, flush := none }

/-- Host base `TransformStreamDefaultController` state. -/
structure BaseControllerState (α : Type) where
  outputs : List α
  errorReason : Option JsError
  terminated : Bool
  deriving Repr

/-- Host base controller behaviour: `enqueue` appends to the readable queue
while the stream is healthy, `error` stores the first failure reason,
`terminate` closes the readable side. -/
def baseControllerApply {α : Type} (a : CtrlAction α)
    (s : BaseControllerState α) : BaseControllerState α :=
  match a with
  | CtrlAction.enqueue c =>
    if s.errorReason = none ∧ s.terminated = false then
      { s with outputs := s.outputs ++ [c] }
    else s
  | CtrlAction.error e =>
    if s.errorReason = none then { s with errorReason := some e } else s
  | CtrlAction.terminate => { s with terminated := true }

/-- The augmented controller action dispatch, translated from
`ShutdownAwareTransformStreamDefaultController`: every action is handed to
the wrapped base controller unchanged; the signal plays no part in the
delegation. -/
def augmentedControllerApply {α : Type} (_signal : SignalState)
    (a : CtrlAction α) (s : BaseControllerState α) : BaseControllerState α :=
  baseControllerApply a s

/-- The adapter as the base `TransformStream` machinery sees it, translated
from `ShutdownAwareTransformerAdapter`: `start` is always defined (it
builds the augmented controller, then runs the user `start` if present);
`transform` is defined exactly when the user `transform` is (constructor:
"only define transform() if the wrapped transformer does"); `flush` is
always defined (it runs the user `flush` if present, then the guarded close
dispatch, which performs no controller action). -/
def adapterTransformerModel {α : Type} (user : TransformerModel α) :
    TransformerModel α :=
  { start := some (user.start.getD ⟨[], CallbackOutcome.ok⟩),
    transform := user.transform,
    flush := some (user.flush.getD ⟨[], CallbackOutcome.ok⟩) }

/-! ## Host `TransformStream` run over a finite input (clean writer close) -/

inductive StreamEnd where
  | close
  | abort (reason : JsError)
  deriving Repr, DecidableEq

structure StreamRunResult (α : Type) where
  chunks : List α
  endState : StreamEnd
  deriving Repr

structure HostRunState (α : Type) where
  ctrl : BaseControllerState α
  failed : Option JsError
  deriving Repr

/-- Host handling of one callback invocation: its controller actions are
applied in order, then the stream fails with the first stored controller
error, or with the callback failure if it threw/rejected. A stream that has
already failed invokes no further callbacks. -/
def applyEffect {α : Type} (eff : CallbackEffect α) (s : HostRunState α) :
    HostRunState α :=
  match s.failed with
  | some _ => s
  | none =>
    let ctrl2 := eff.actions.foldl (fun c a => baseControllerApply a c) s.ctrl
    let failure :=
      match ctrl2.errorReason with
      | some e => some e
      | none =>
        match eff.outcome with
        | CallbackOutcome.ok => none
        | CallbackOutcome.threw e => some e
    { ctrl := ctrl2, failed := failure }

def initialHostRunState (α : Type) : HostRunState α := ⟨⟨[], none, false⟩, none⟩

/-- Host: run the `start` callback if the transformer defines one. -/
def runStart {α : Type} (t : TransformerModel α) : HostRunState α :=
  match t.start with
  | none => initialHostRunState α
  | some eff => applyEffect eff (initialHostRunState α)

/-- Host: process one written chunk — the default behaviour when the
transformer defines no `transform` enqueues the chunk unchanged. -/
def runChunk {α : Type} (t : TransformerModel α) (s : HostRunState α)
    (c : α) : HostRunState α :=
  if s.ctrl.terminated then s
  else
    match t.transform with
    | none => applyEffect ⟨[CtrlAction.enqueue c], CallbackOutcome.ok⟩ s
    | some f => applyEffect (f c) s

def runChunks {α : Type} (t : TransformerModel α) (inputs : List α)
    (s : HostRunState α) : HostRunState α :=
  inputs.foldl (runChunk t) s

/-- Host: run the `flush` callback, if any, on clean end-of-input. -/
def runFlushStep {α : Type} (t : TransformerModel α) (s : HostRunState α) :
    HostRunState α :=
  match t.flush with
  | none => s
  | some eff => applyEffect eff s

/-- Host `TransformStream` processing of a finite input sequence followed
by a clean writer close: `start`, then one `transform` per chunk, then
`flush`; the readable side closes cleanly unless a failure occurred. -/
def runTransformer {α : Type} (t : TransformerModel α) (inputs : List α) :
    StreamRunResult α :=
  let s3 := runFlushStep t (runChunks t inputs (runStart t))
  { chunks := s3.ctrl.outputs,
    endState :=
      match s3.failed with
      | some e => StreamEnd.abort e
      | none => StreamEnd.close }

/-- States produced by the host run: a not-yet-failed stream has no stored
controller error (the host converts the first stored error into stream
failure as soon as the callback that performed it settles). -/
def hostInv {α : Type} (s : HostRunState α) : Prop :=
  s.failed = none → s.ctrl.errorReason = none

lemma hostInv_initial (α : Type) : hostInv (initialHostRunState α) :=
  fun _ => rfl

lemma hostInv_applyEffect {α : Type} (eff : CallbackEffect α)
    (s : HostRunState α) (h : hostInv s) : hostInv (applyEffect eff s) := by
  unfold applyEffect
  cases hf : s.failed with
  | some e => exact h
  | none =>
    simp only
    intro hfail
    cases herr : (eff.actions.foldl (fun c a => baseControllerApply a c)
        s.ctrl).errorReason with
    | none => rfl
    | some e => simp only [herr] at hfail; exact hfail

lemma hostInv_runChunk {α : Type} (t : TransformerModel α)
    (s : HostRunState α) (c : α) (h : hostInv s) : hostInv (runChunk t s c) := by
  unfold runChunk
  split
  · exact h
  · cases t.transform <;> exact hostInv_applyEffect _ _ h

lemma hostInv_runChunks {α : Type} (t : TransformerModel α)
    (inputs : List α) (s : HostRunState α) (h : hostInv s) :
    hostInv (runChunks t inputs s) := by
  induction inputs generalizing s with
  | nil => exact h
  | cons c cs ih => exact ih _ (hostInv_runChunk t s c h)

lemma hostInv_runStart {α : Type} (t : TransformerModel α) :
    hostInv (runStart t) := by
  unfold runStart
  cases t.start with
  | none => exact hostInv_initial α
  | some eff => exact hostInv_applyEffect _ _ (hostInv_initial α)

/-- The empty successful callback effect is invisible to the host run. -/
lemma applyEffect_empty {α : Type} (s : HostRunState α) (h : hostInv s) :
    applyEffect ⟨[], CallbackOutcome.ok⟩ s = s := by
  unfold applyEffect
  cases hf : s.failed with
  | some e => rfl
  | none =>
    simp only [List.foldl_nil]
    rw [h hf]
    cases s with
    | mk ctrl failed => simp only at hf; subst hf; rfl

/-- C3: the adapter leaves its own `transform` method undefined exactly when
the user supplied none, so the base machinery default pass-through applies,
and a stream constructed with no transformer reproduces every finite input
sequence exactly on its readable side, followed by clean closure. -/
theorem pass_through_identity {α : Type} (inputs : List α) :
    (∀ user : TransformerModel α,
      (adapterTransformerModel user).transform = user.transform) ∧
    (adapterTransformerModel (emptyTransformer α)).transform = none ∧
    runTransformer (adapterTransformerModel (emptyTransformer α)) inputs
      = ⟨inputs, StreamEnd.close⟩ := by
  refine ⟨fun _ => rfl, rfl, ?_⟩
  have hchunks : ∀ (cs : List α) (s : HostRunState α),
      s.failed = none → s.ctrl.errorReason = none → s.ctrl.terminated = false →
      runChunks (adapterTransformerModel (emptyTransformer α)) cs s
        = ⟨⟨s.ctrl.outputs ++ cs, none, false⟩, none⟩ := by
    intro cs
    induction cs with
    | nil =>
      intro s hf he ht
      cases s with
      | mk ctrl failed =>
        cases ctrl with
        | mk os er tm =>
          simp only at hf he ht
          subst hf; subst he; subst ht
          simp [runChunks]
    | cons c cs ih =>
      intro s hf he ht
      have hstep : runChunk (adapterTransformerModel (emptyTransformer α)) s c
          = ⟨⟨s.ctrl.outputs ++ [c], none, false⟩, none⟩ := by
        unfold runChunk
        rw [ht]
        simp only [adapterTransformerModel, emptyTransformer]
        unfold applyEffect
        rw [hf]
        simp only [List.foldl_cons, List.foldl_nil]
        unfold baseControllerApply
        simp [he, ht]
      show runChunks _ (c :: cs) s = _
      unfold runChunks
      rw [List.foldl_cons]
      show runChunks _ cs (runChunk _ s c) = _
      rw [hstep, ih _ rfl rfl rfl]
      simp
  unfold runTransformer
  have hstart : runStart (adapterTransformerModel (emptyTransformer α))
      = initialHostRunState α := rfl
  rw [hstart]
  rw [hchunks inputs (initialHostRunState α) rfl rfl rfl]
  simp only [runFlushStep, adapterTransformerModel, emptyTransformer,
    Option.getD]
  rw [applyEffect_empty _ (fun _ => rfl)]
  simp [initialHostRunState]

/-- The adapter is behaviourally transparent to the base machinery: running
the adapter-wrapped transformer over any finite input gives the same chunks
and the same end state as running the user transformer directly. -/
lemma adapter_run_eq_base_run {α : Type} (user : TransformerModel α)
    (inputs : List α) :
    runTransformer (adapterTransformerModel user) inputs
      = runTransformer user inputs := by
  have hstart : runStart (adapterTransformerModel user) = runStart user := by
    unfold runStart adapterTransformerModel
    cases user.start with
    | none =>
      simp only [Option.getD]
      exact applyEffect_empty _ (hostInv_initial α)
    | some eff => rfl
  have htrans : ∀ (s : HostRunState α),
      runChunks (adapterTransformerModel user) inputs s
        = runChunks user inputs s := by
    intro s
    unfold runChunks
    have : runChunk (adapterTransformerModel user) = runChunk user := by
      funext s c
      unfold runChunk adapterTransformerModel
      rfl
    rw [this]
  have hflush : ∀ (s : HostRunState α), hostInv s →
      runFlushStep (adapterTransformerModel user) s = runFlushStep user s := by
    intro s hs
    unfold runFlushStep adapterTransformerModel
    cases user.flush with
    | none =>
      simp only [Option.getD]
      exact applyEffect_empty _ hs
    | some eff => rfl
  unfold runTransformer
  rw [hstart, htrans, hflush _ (hostInv_runChunks user inputs _
    (hostInv_runStart user))]

/-! ## Constructor options and wiring (C9)

Translated from the `ShutdownAwareTransformStream` constructor:

```ts
constructor(options: ShutdownAwareTransformStreamOptions<I, O> = {}) {
  this.#monitor = new ShutdownMonitorWritableStream({
    queuingStrategy: options.writableStrategy,
  });
  ...
  this.#transformer = new ShutdownAwareTransformerAdapter<I, O>(
    this.#abortController.signal,
    options.transformer ?? {},
  );
  this.#transformStream = new TransformStream<I, O>(
    this.#transformer,
    undefined,
    options.readableStrategy,
  );
  ...
}
```
-/

/-- A queuing strategy value as configured by the caller: a capacity
threshold plus an optional per-chunk size function. The constructor does
not inspect it. -/
structure QueuingStrategyModel where
  highWaterMark : Nat
  hasSizeFn : Bool
  deriving Repr, DecidableEq

/-- The single options object accepted by the constructor; every field is
optional. -/
structure StreamOptionsModel (α : Type) where
  transformer : Option (TransformerModel α)
  writableStrategy : Option QueuingStrategyModel
  readableStrategy : Option QueuingStrategyModel

/-- The default `{}` options value (`constructor(options = {})`). -/
def defaultStreamOptions (α : Type) : StreamOptionsModel α :=
  { transformer := none, writableStrategy := none, readableStrategy := none }

/-- The composition the constructor builds: which strategies reach which
underlying primitive, and which transformer shapes are in play. -/
structure CompositionModel (α : Type) where
  /-- Strategy given to the monitor (the externally visible writable). -/
  monitorQueuingStrategy : Option QueuingStrategyModel
  /-- Writable-side strategy given to the inner `TransformStream`. -/
  innerWritableStrategy : Option QueuingStrategyModel
  /-- Readable-side strategy given to the inner `TransformStream`. -/
  innerReadableStrategy : Option QueuingStrategyModel
  /-- The transformer handed to the inner `TransformStream` (the adapter). -/
  adapterTransformer : TransformerModel α
  /-- The user transformer the adapter wraps (`options.transformer ?? {}`). -/
  userTransformer : TransformerModel α

def mkShutdownAwareTransformStream {α : Type} (opts : StreamOptionsModel α) :
    CompositionModel α :=
  { monitorQueuingStrategy := opts.writableStrategy,
    innerWritableStrategy := none,
    innerReadableStrategy := opts.readableStrategy,
    adapterTransformer :=
      adapterTransformerModel (opts.transformer.getD (emptyTransformer α)),
    userTransformer := opts.transformer.getD (emptyTransformer α) }

/-- C9: the constructor takes one options object with optional
`transformer`, `writableStrategy` and `readableStrategy` fields; the
writable-side strategy is forwarded unmodified to the monitor — the
underlying writable primitive — and the readable-side strategy unmodified
to the inner `TransformStream`; the augmented controller delegates every
action to the base controller unchanged, and the wrapped `start`,
`transform` and `flush` behave under the base machinery exactly as the user
callbacks would on a base `TransformStream`. -/
theorem constructor_options_forwarded {α : Type}
    (opts : StreamOptionsModel α) (inputs : List α) :
    (mkShutdownAwareTransformStream opts).monitorQueuingStrategy
        = opts.writableStrategy ∧
    (mkShutdownAwareTransformStream opts).innerReadableStrategy
        = opts.readableStrategy ∧
    (mkShutdownAwareTransformStream (defaultStreamOptions α)).userTransformer
        = emptyTransformer α ∧
    (∀ sig a s, augmentedControllerApply (α := α) sig a s
        = baseControllerApply a s) ∧
    runTransformer (mkShutdownAwareTransformStream opts).adapterTransformer
        inputs
      = runTransformer
          (mkShutdownAwareTransformStream opts).userTransformer inputs :=
  ⟨rfl, rfl, rfl, fun _ _ _ => rfl,
   adapter_run_eq_base_run (opts.transformer.getD (emptyTransformer α))
     inputs⟩

/-! ## Adapter assertions (C10)

The adapter stores the base controller handed to `start`
(`this.#wrappedController = controller`) and builds the augmented controller
(`this.#controller = new ShutdownAwareTransformStreamDefaultController(...)`);
`flush` and the wrapped `transform` assert that the controller they receive
is that stored controller and that the augmented controller exists:

```ts
assert(_controller === this.#wrappedController);
assert(this.#controller);
```

Controller object identity is modelled by a numeric id. -/

structure AdapterCtrlState where
  wrappedController : Option Nat
  controllerBuilt : Bool
  deriving Repr, DecidableEq

def adapterCtrlInit : AdapterCtrlState :=
  { wrappedController := none, controllerBuilt := false }

/-- The controller bookkeeping of the adapter `start`. -/
def adapterStartCtrl (c : Nat) (_s : AdapterCtrlState) : AdapterCtrlState :=
  { wrappedController := some c, controllerBuilt := true }

/-- The assertions guarding `flush` and the wrapped `transform`, given the
controller `c` the base machinery passed in. -/
def adapterAssertsOk (s : AdapterCtrlState) (c : Nat) : Bool :=
  (s.wrappedController == some c) && s.controllerBuilt

/-- A reachable base-machinery execution: `start` once with controller `c`,
then any number of `transform`/`flush` calls, each passing the same
controller `c` (the base machinery creates one controller per stream and
passes it to every transformer callback). Neither call mutates the adapter
controller bookkeeping, so the assert outcomes are one Boolean per call. -/
inductive BaseCall where
  | transformCall
  | flushCall
  deriving Repr, DecidableEq

def adapterAssertOutcomes (c : Nat) (calls : List BaseCall) : List Bool :=
  calls.map (fun _ => adapterAssertsOk (adapterStartCtrl c adapterCtrlInit) c)

/-- C10: in every reachable execution — `start` first with some controller,
then `transform`/`flush` calls passing that same controller — both adapter
assertions hold at every call: the received controller equals the stored
wrapped controller and the augmented controller is already built, so the
assertion-failure branches are unreachable. -/
theorem adapter_asserts_unreachable (c : Nat) (calls : List BaseCall) :
    adapterAssertOutcomes c calls = List.replicate calls.length true ∧
      adapterAssertsOk (adapterStartCtrl c adapterCtrlInit) c = true := by
  constructor
  · unfold adapterAssertOutcomes
    have h : adapterAssertsOk (adapterStartCtrl c adapterCtrlInit) c = true := by
      simp [adapterAssertsOk, adapterStartCtrl]
    rw [h]
    induction calls with
    | nil => rfl
    | cons x xs ih => simp [List.replicate_succ, ih]
  · simp [adapterAssertsOk, adapterStartCtrl]

/-! ## Pipeline buffering (C6)

The repository relies on the monitor sink returning the destination writer
write promise:

```ts
// By taking option a we cause the chunk buffer/queue of the monitored
// stream not to be used, because our queue will not begin executing a
// write until the promise of the previous write has resolved. ...
// it does make the presence of the wrapper transparent
return this.#monitoredWriter!.write(chunk);
```

Wrapped pipeline (source with default capacity 1, piped into the composed
stream): the monitor queue carries the configured writable capacity W (the
constructor passes `options.writableStrategy` to the monitor); the inner
`TransformStream` writable gets no strategy, but at most the single
in-flight chunk ever occupies it, because the monitor issues sink writes
serially and each write promise resolves only when the inner transform has
moved the chunk into the readable queue (capacity R, from
`options.readableStrategy`). A chunk being written stays counted in the
monitor queue — the host dequeues after the sink write settles — so the
in-flight chunk is never counted twice.

The fill process is modelled as a deterministic step function, applied until
quiescence: completing an in-flight write when the readable queue has
space, issuing the next write, moving a chunk from the source into the
monitor queue when it has space, and pulling from the source when its own
queue is below its capacity of one. `pulls` counts source pulls. -/

structure WrappedPipelineState where
  src : Nat
  monQ : Nat
  innerQ : Nat
  readQ : Nat
  pulls : Nat
  deriving Repr, DecidableEq

def wrappedInit : WrappedPipelineState :=
  { src := 0, monQ := 0, innerQ := 0, readQ := 0, pulls := 0 }

def wrappedStep (W R : Nat) (s : WrappedPipelineState) :
    Option WrappedPipelineState :=
  if 0 < s.innerQ ∧ s.readQ < R then
    some { s with innerQ := s.innerQ - 1, monQ := s.monQ - 1,
                  readQ := s.readQ + 1 }
  else if s.innerQ = 0 ∧ 0 < s.monQ then
    some { s with innerQ := 1 }
  else if 0 < s.src ∧ s.monQ < W then
    some { s with src := s.src - 1, monQ := s.monQ + 1 }
  else if s.src < 1 then
    some { s with src := s.src + 1, pulls := s.pulls + 1 }
  else none

def wrappedIter (W R : Nat) : Nat → WrappedPipelineState →
    WrappedPipelineState
  | 0, s => s
  | n + 1, s =>
    match wrappedStep W R s with
    | none => s
    | some s2 => wrappedIter W R n s2

/-- Conservation and capacity invariant of the wrapped fill process: every
pulled chunk resides in exactly one of the source, monitor or readable
queues; the in-flight chunk in the inner writable queue is the monitor
queue head; no queue exceeds its capacity. -/
def wrappedInv (W R : Nat) (s : WrappedPipelineState) : Prop :=
  s.src ≤ 1 ∧ s.monQ ≤ W ∧ s.readQ ≤ R ∧ s.innerQ ≤ 1 ∧
    (0 < s.innerQ → 0 < s.monQ) ∧ s.pulls = s.src + s.monQ + s.readQ

lemma wrappedInv_step (W R : Nat) (s s2 : WrappedPipelineState)
    (h : wrappedInv W R s) (hs : wrappedStep W R s = some s2) :
    wrappedInv W R s2 := by
  obtain ⟨h1, h2, h3, h4, h5, h6⟩ := h
  unfold wrappedStep at hs
  split_ifs at hs with c1 c2 c3 c4 <;>
    (cases hs; unfold wrappedInv; simp only) <;> omega

lemma wrappedInv_iter (W R : Nat) :
    ∀ (n : Nat) (s : WrappedPipelineState), wrappedInv W R s →
      wrappedInv W R (wrappedIter W R n s)
  | 0, _, h => h
  | n + 1, s, h => by
    unfold wrappedIter
    cases hs : wrappedStep W R s with
    | none => exact h
    | some s2 => exact wrappedInv_iter W R n s2 (wrappedInv_step W R s s2 h hs)

lemma wrappedInv_init (W R : Nat) : wrappedInv W R wrappedInit := by
  unfold wrappedInv wrappedInit
  simp

/-- At quiescence, with a positive writable capacity, the wrapped pipeline
has absorbed exactly 1 + W + R chunks. -/
lemma wrapped_quiescent_pulls (W R : Nat) (hW : 0 < W)
    (s : WrappedPipelineState) (h : wrappedInv W R s)
    (hq : wrappedStep W R s = none) : s.pulls = 1 + W + R := by
  obtain ⟨h1, h2, h3, h4, h5, h6⟩ := h
  unfold wrappedStep at hq
  split_ifs at hq with c1 c2 c3 c4
  push_neg at c1 c2 c3 c4
  omega

/-- The inner `TransformStream` writable queue never holds more than the
single in-flight chunk, for any number of fill steps: the wrapper adds no
buffering of its own. -/
lemma wrapped_innerQ_le_one (W R n : Nat) :
    (wrappedIter W R n wrappedInit).innerQ ≤ 1 :=
  (wrappedInv_iter W R n wrappedInit (wrappedInv_init W R)).2.2.2.1

/-! The unwrapped base `TransformStream` under the same capacities: source
of capacity 1, writable queue of capacity W, readable queue of capacity R.
The host processes the writable queue head serially — `transforming` marks
a transform in flight, which completes when the readable queue has space —
and dequeues a chunk once its transform completes. -/

structure BasePipelineState where
  src : Nat
  wQ : Nat
  transforming : Bool
  readQ : Nat
  pulls : Nat
  deriving Repr, DecidableEq

def basePipelineInit : BasePipelineState :=
  { src := 0, wQ := 0, transforming := false, readQ := 0, pulls := 0 }

def basePipelineStep (W R : Nat) (s : BasePipelineState) :
    Option BasePipelineState :=
  if s.transforming = true ∧ s.readQ < R then
    some { s with transforming := false, wQ := s.wQ - 1,
                  readQ := s.readQ + 1 }
  else if s.transforming = false ∧ 0 < s.wQ then
    some { s with transforming := true }
  else if 0 < s.src ∧ s.wQ < W then
    some { s with src := s.src - 1, wQ := s.wQ + 1 }
  else if s.src < 1 then
    some { s with src := s.src + 1, pulls := s.pulls + 1 }
  else none

def basePipelineIter (W R : Nat) : Nat → BasePipelineState →
    BasePipelineState
  | 0, s => s
  | n + 1, s =>
    match basePipelineStep W R s with
    | none => s
    | some s2 => basePipelineIter W R n s2

def basePipelineInv (W R : Nat) (s : BasePipelineState) : Prop :=
  s.src ≤ 1 ∧ s.wQ ≤ W ∧ s.readQ ≤ R ∧
    (s.transforming = true → 0 < s.wQ) ∧ s.pulls = s.src + s.wQ + s.readQ

lemma basePipelineInv_step (W R : Nat) (s s2 : BasePipelineState)
    (h : basePipelineInv W R s) (hs : basePipelineStep W R s = some s2) :
    basePipelineInv W R s2 := by
  obtain ⟨h1, h2, h3, h4, h5⟩ := h
  unfold basePipelineStep at hs
  split_ifs at hs with c1 c2 c3 c4 <;>
    (cases hs; unfold basePipelineInv; simp only) <;>
    simp_all <;> omega

lemma basePipelineInv_iter (W R : Nat) :
    ∀ (n : Nat) (s : BasePipelineState), basePipelineInv W R s →
      basePipelineInv W R (basePipelineIter W R n s)
  | 0, _, h => h
  | n + 1, s, h => by
    unfold basePipelineIter
    cases hs : basePipelineStep W R s with
    | none => exact h
    | some s2 =>
      exact basePipelineInv_iter W R n s2
        (basePipelineInv_step W R s s2 h hs)

lemma basePipelineInv_init (W R : Nat) :
    basePipelineInv W R basePipelineInit := by
  unfold basePipelineInv basePipelineInit
  simp

lemma basePipeline_quiescent_pulls (W R : Nat) (hW : 0 < W)
    (s : BasePipelineState) (h : basePipelineInv W R s)
    (hq : basePipelineStep W R s = none) : s.pulls = 1 + W + R := by
  obtain ⟨h1, h2, h3, h4, h5⟩ := h
  unfold basePipelineStep at hq
  split_ifs at hq with c1 c2 c3 c4
  push_neg at c1 c2 c3 c4
  by_cases ht : s.transforming = true
  · have := c1 ht
    omega
  · simp only [Bool.not_eq_true] at ht
    have := c2 ht
    omega

/-- C6: inserting the wrapper adds zero buffering capacity — for every
writable capacity W > 0 and readable capacity R, once the fill process of
the wrapped pipeline reaches quiescence it has pulled exactly 1 + W + R
chunks from the source, the same count as the unwrapped base
`TransformStream` under the same capacities. -/
theorem no_extra_buffering (W R n m : Nat) (hW : 0 < W)
    (hq1 : wrappedStep W R (wrappedIter W R n wrappedInit) = none)
    (hq2 : basePipelineStep W R
      (basePipelineIter W R m basePipelineInit) = none) :
    (wrappedIter W R n wrappedInit).pulls = 1 + W + R ∧
      (basePipelineIter W R m basePipelineInit).pulls
        = (wrappedIter W R n wrappedInit).pulls := by
  have hw := wrapped_quiescent_pulls W R hW _
    (wrappedInv_iter W R n wrappedInit (wrappedInv_init W R)) hq1
  have hb := basePipeline_quiescent_pulls W R hW _
    (basePipelineInv_iter W R m basePipelineInit (basePipelineInv_init W R))
    hq2
  exact ⟨hw, by rw [hw, hb]⟩

/-- Witness for C6: capacities W = 1, R = 1; both pipelines quiesce within
20 steps having pulled 3 chunks. -/
theorem no_extra_buffering_witness :
    0 < 1 ∧
    wrappedStep 1 1 (wrappedIter 1 1 20 wrappedInit) = none ∧
    basePipelineStep 1 1 (basePipelineIter 1 1 20 basePipelineInit)
      = none ∧
    (wrappedIter 1 1 20 wrappedInit).pulls = 1 + 1 + 1 ∧
    (basePipelineIter 1 1 20 basePipelineInit).pulls
      = (wrappedIter 1 1 20 wrappedInit).pulls :=
  ⟨by decide, by decide, by decide,
   no_extra_buffering 1 1 20 20 (by decide) (by decide) (by decide)⟩

end SATS
